import Mathlib

/-!
Shallow embedding of the jina-mcp server (src/jina_mcp/client.py,
src/jina_mcp/server.py, src/jina_mcp/tools.py) and proofs about the
spec claims concerning its dispatcher, upstream client and SSE layer.

JSON-compatible Python values are modelled by `Json`; a Python call that
may raise is modelled as `Except PyErr _`, where a `.error` value stands
for an exception propagating out of the modelled code.
-/

/-- JSON-compatible value, as produced by response.json() and passed
through the handlers. -/
inductive Json where
  | null
  | bool (b : Bool)
  | num (n : Int)
  | str (s : String)
  | arr (xs : List Json)
  | obj (fields : List (String × Json))

/-- Python exception classes raised by the modelled code paths. -/
inductive PyErr where
  | runtimeError (msg : String)
  | valueError (msg : String)
  | typeError (msg : String)
  | nameError (name : String)
  | attributeError (name : String)
deriving DecidableEq

/-- Python dict-get with default, `o.get(k, dflt)`: on a dict, the bound
value when the key is present and the default otherwise; on any non-dict
value, an AttributeError (no such method), as in CPython. -/
def dict_get (o : Json) (k : String) (dflt : Json) : Except PyErr Json :=
  match o with
  | .obj fields => .ok ((fields.lookup k).getD dflt)
  | _ => .error (.attributeError "get")

/-- JinaClient.read_url, client.py lines 166 and 172: the POST body is
the single-field object with key url. -/
def read_url_payload (url : String) : Json := .obj [("url", .str url)]

/-- JinaClient.read_url success path, client.py line 172:
`data.get("data", \x7b\x7d).get("content", "")` applied to the parsed
response body. -/
def client_read_url_extract (resp : Json) : Except PyErr Json := do
  let d ← dict_get resp "data" (.obj [])
  dict_get d "content" (.str "")

/-- Optional flags accepted by JinaClient.search, client.py lines 181-183. -/
structure SearchOpts where
  x_with_images : Option Bool := none
  x_with_favicons : Option Bool := none
  x_locale : Option String := none

/-- JinaClient.search, client.py line 193: the POST body is
`q` and `num` only; the optional flags of the signature are never
written into the payload. -/
def search_payload (q : String) (limit : Int) (_opts : SearchOpts) : Json :=
  .obj [("q", .str q), ("num", .num limit)]

/-- JinaClient.search success path, client.py line 199:
`data.get("data", [])` applied to the parsed response body. -/
def client_search_extract (resp : Json) : Except PyErr Json :=
  dict_get resp "data" (.arr [])

/-- The jina_reader tool handler, server.py lines 63-73: on success wraps
the content string as a result object; on an exception from the client it
logs and then re-raises the original exception (`raise e`). -/
def server_read_url_handler (upstream : Except PyErr Json) : Except PyErr Json :=
  match upstream with
  | .ok content => .ok (.obj [("result", .obj [("content", content)])])
  | .error e => .error e

/-- The jina_search tool handler, server.py lines 79-89: on success wraps
the list as a result object; on an exception from the client it executes
`raise ToolError(error_msg)`, but the name ToolError is never imported in
server.py, so the raise itself fails with a NameError. -/
def server_search_handler (upstream : Except PyErr Json) : Except PyErr Json :=
  match upstream with
  | .ok result => .ok (.obj [("result", result)])
  | .error _ => .error (.nameError "ToolError")

/-- Is a modelled call outcome a normal return (no exception escaping)? -/
def exceptOk : Except PyErr Json → Bool
  | .ok _ => true
  | .error _ => false

/-- C1 counterexample: an upstream exception in the jina_reader handler is
not converted to a failed result carrying a ToolExecutionError; the
original exception escapes the handler unchanged, and the handler does
not return a value at all. -/
theorem C1_counterexample :
    server_read_url_handler (.error (.runtimeError "HTTP error 500")) =
      .error (.runtimeError "HTTP error 500")
    ∧ exceptOk (server_read_url_handler (.error (.runtimeError "HTTP error 500"))) = false := by
  constructor
  · rfl
  · rfl

/-- C1 amended: any exception raised by the bound client call escapes the
tool handler rather than being converted to a failed result: jina_reader
re-raises the original exception unchanged, and jina_search raises a
NameError because the name ToolError it tries to raise is unbound in
server.py; neither handler returns normally on an upstream fault. -/
theorem C1_amended (e : PyErr) :
    server_read_url_handler (.error e) = .error e
    ∧ server_search_handler (.error e) = .error (.nameError "ToolError")
    ∧ exceptOk (server_read_url_handler (.error e)) = false
    ∧ exceptOk (server_search_handler (.error e)) = false := by
  refine ⟨rfl, rfl, rfl, rfl⟩

/-- C5: the reader payload is the single-field url object; on an upstream
body whose data object binds content to a string s, the jina_reader tool
handler returns the wrapped result object with content s; when the
content field (or the whole data field) is absent the content defaults to
the empty string. -/
theorem C5_reader_pipeline (url s : String) (fields fields2 : List (String × Json))
    (h1 : fields.lookup "content" = some (.str s))
    (h2 : fields2.lookup "content" = none) :
    read_url_payload url = Json.obj [("url", Json.str url)]
    ∧ server_read_url_handler (client_read_url_extract (.obj [("data", .obj fields)])) =
        .ok (.obj [("result", .obj [("content", .str s)])])
    ∧ server_read_url_handler (client_read_url_extract (.obj [("data", .obj fields2)])) =
        .ok (.obj [("result", .obj [("content", .str "")])])
    ∧ server_read_url_handler (client_read_url_extract (.obj [])) =
        .ok (.obj [("result", .obj [("content", .str "")])]) := by
  refine ⟨rfl, ?_, ?_, rfl⟩
  · simp [client_read_url_extract, dict_get, List.lookup, Bind.bind, Except.bind, h1,
      server_read_url_handler]
  · simp [client_read_url_extract, dict_get, List.lookup, Bind.bind, Except.bind, h2,
      server_read_url_handler]

/-- C5 witness: the upstream body data.content = "hello" yields the
wrapped result with content "hello". -/
theorem C5_witness :
    ([("content", Json.str "hello")] : List (String × Json)).lookup "content" =
      some (Json.str "hello")
    ∧ (([] : List (String × Json)).lookup "content" = none)
    ∧ server_read_url_handler
        (client_read_url_extract (.obj [("data", .obj [("content", Json.str "hello")])])) =
        .ok (.obj [("result", .obj [("content", Json.str "hello")])]) :=
  ⟨rfl, rfl,
    (C5_reader_pipeline "https://example.com" "hello" [("content", Json.str "hello")] []
      rfl rfl).2.1⟩

/-- C6 counterexample: with the optional locale flag supplied, the search
request body is still exactly the two-field q/num object — identical to
the body produced with no flags supplied — so the supplied flag never
reaches the POST body, contrary to the claim. -/
theorem C6_counterexample :
    search_payload "test" 2 ⟨none, none, some "en"⟩ =
      Json.obj [("q", Json.str "test"), ("num", Json.num 2)]
    ∧ search_payload "test" 2 ⟨none, none, some "en"⟩ =
        search_payload "test" 2 ⟨none, none, none⟩ :=
  ⟨rfl, rfl⟩

/-- C6 amended: search issues one POST whose body is always exactly the
q/num object — optional flags accepted by the signature are never added
to the body — and on success it returns the upstream data array verbatim,
defaulting to the empty array when the data field is absent. -/
theorem C6_amended (q : String) (limit : Int) (opts : SearchOpts)
    (fields fields2 : List (String × Json)) (xs : List Json)
    (h1 : fields.lookup "data" = some (.arr xs))
    (h2 : fields2.lookup "data" = none) :
    search_payload q limit opts = Json.obj [("q", .str q), ("num", .num limit)]
    ∧ search_payload q limit opts = search_payload q limit ⟨none, none, none⟩
    ∧ client_search_extract (.obj fields) = .ok (.arr xs)
    ∧ client_search_extract (.obj fields2) = .ok (.arr []) := by
  refine ⟨rfl, rfl, ?_, ?_⟩
  · simp [client_search_extract, dict_get, h1]
  · simp [client_search_extract, dict_get, h2]

/-- C6 amended witness: a two-element upstream data array is returned
verbatim by the search extraction. -/
theorem C6_amended_witness :
    ([("data", Json.arr [Json.obj [("title", Json.str "A")],
        Json.obj [("title", Json.str "B")]])] : List (String × Json)).lookup "data" =
      some (Json.arr [Json.obj [("title", Json.str "A")], Json.obj [("title", Json.str "B")]])
    ∧ (([] : List (String × Json)).lookup "data" = none)
    ∧ client_search_extract
        (.obj [("data", Json.arr [Json.obj [("title", Json.str "A")],
          Json.obj [("title", Json.str "B")]])]) =
        .ok (Json.arr [Json.obj [("title", Json.str "A")], Json.obj [("title", Json.str "B")]]) :=
  ⟨rfl, rfl,
    (C6_amended "test" 2 ⟨none, none, some "en"⟩
      [("data", Json.arr [Json.obj [("title", Json.str "A")], Json.obj [("title", Json.str "B")]])]
      [] [Json.obj [("title", Json.str "A")], Json.obj [("title", Json.str "B")]]
      rfl rfl).2.2.1⟩

/-- Keyword parameters declared by JinaClient.read_url, client.py
lines 150-157. -/
def read_url_params : List String :=
  ["url", "x_with_links_summary", "x_with_metadata", "x_with_highlight", "x_with_shadow_dom"]

/-- Parameters of JinaClient.read_url without a default value. -/
def read_url_required_params : List String := ["url"]

/-- Keyword parameters declared by JinaClient.search, client.py
lines 177-184. -/
def search_params : List String :=
  ["q", "limit", "x_with_images", "x_with_favicons", "x_locale"]

/-- Parameters of JinaClient.search without a default value. -/
def search_required_params : List String := ["q"]

/-- Python keyword-argument binding for a call `f(**kwargs)`: the call
binds iff every parameter without a default is supplied and every
supplied name is a declared parameter; otherwise CPython raises a
TypeError before the body of f runs. -/
def kwargs_bind_ok (declared required supplied : List String) : Bool :=
  required.all (fun r => supplied.contains r) && supplied.all (fun k => declared.contains k)

/-- Outcome of a dispatch step, as observed at the boundary between the
dispatcher and the upstream HTTP layer. `invokesUpstream` records that
the bound handler ran far enough to issue its HTTP POST; `typeError`
models a raised TypeError; `unknownTool` models the raised
`ValueError("Unknown tool/method ...")`; `invalidParameters` is the
error envelope the spec prescribes for validation failures — it exists
in the outcome type so the spec claim is statable, and no function
translated from the code ever produces it. -/
inductive DispatchResult where
  | ok (v : Json)
  | invokesUpstream (endpoint : String) (payload : Json)
  | typeError
  | unknownTool (msg : String)
  | invalidParameters (missing : List String)

/-- Does a dispatch outcome reach the Upstream API Client (an HTTP call)? -/
def isUpstreamCall : DispatchResult → Bool
  | .invokesUpstream _ _ => true
  | _ => false

/-- Is a dispatch outcome the aggregated InvalidParametersError envelope
that the spec prescribes? -/
def isInvalidParametersResult : DispatchResult → Bool
  | .invalidParameters _ => true
  | _ => false

/-- JinaTools.execute_tool, tools.py lines 82-100: no schema validation
happens; the name is compared against the two tool names and the
parameter dict is splatted directly into the client call
(`self.client.read_url(**parameters)` / `self.client.search(**parameters)`),
so a bad parameter set surfaces as a TypeError from Python call binding;
an unknown name raises `ValueError("Unknown tool: ...")`. On a successful
binding the client call issues its POST to the fixed endpoint. -/
def execute_tool (name : String) (parameters : List (String × Json)) : DispatchResult :=
  if name == "jina.reader" then
    if kwargs_bind_ok read_url_params read_url_required_params (parameters.map Prod.fst) then
      .invokesUpstream "https://r.jina.ai/"
        (.obj [("url", (parameters.lookup "url").getD .null)])
    else .typeError
  else if name == "jina.search" then
    if kwargs_bind_ok search_params search_required_params (parameters.map Prod.fst) then
      .invokesUpstream "https://s.jina.ai/"
        (.obj [("q", (parameters.lookup "q").getD .null),
               ("num", (parameters.lookup "limit").getD (.num 5))])
    else .typeError
  else .unknownTool ("Unknown tool: " ++ name)

/-- JinaClient.process_mcp_request, client.py lines 204-237: mcp.discover
returns the static capability record; jina_reader and jina_search forward
`stream=stream` together with the caller params into read_url / search —
neither of which declares a stream parameter, so the call binding raises
a TypeError (also when params itself carries a stream key: then the
duplicate keyword raises); any other method raises
`ValueError("Unknown MCP method: ...")`. -/
def process_mcp_request (method : String) (params : List (String × Json)) : DispatchResult :=
  if method == "mcp.discover" then
    .ok (.obj [("name", .str "jina-ai-search-mcp"), ("version", .str "0.1.0"),
      ("capabilities", .arr [.str "tools/list", .str "tools/execute", .str "stream"])])
  else if method == "jina_reader" then
    if kwargs_bind_ok read_url_params read_url_required_params
        ("stream" :: params.map Prod.fst) then
      .invokesUpstream "https://r.jina.ai/"
        (.obj [("url", (params.lookup "url").getD .null)])
    else .typeError
  else if method == "jina_search" then
    if kwargs_bind_ok search_params search_required_params
        ("stream" :: params.map Prod.fst) then
      .invokesUpstream "https://s.jina.ai/"
        (.obj [("q", (params.lookup "q").getD .null),
               ("num", (params.lookup "limit").getD (.num 5))])
    else .typeError
  else .unknownTool ("Unknown MCP method: " ++ method)

/-- C7 counterexample: invoking jina.reader with an empty parameter
mapping (the required url missing) does not produce an aggregated
InvalidParametersError envelope; it raises a TypeError from Python call
binding. The upstream client is not reached. -/
theorem C7_counterexample :
    execute_tool "jina.reader" ([] : List (String × Json)) = .typeError
    ∧ isInvalidParametersResult (execute_tool "jina.reader" []) = false
    ∧ isUpstreamCall (execute_tool "jina.reader" []) = false :=
  ⟨rfl, rfl, rfl⟩

/-- Keyword binding for read_url fails whenever url is not supplied. -/
theorem kwargs_reader_missing_url (supplied : List String)
    (hu : supplied.contains "url" = false) :
    kwargs_bind_ok read_url_params read_url_required_params supplied = false := by
  simp only [kwargs_bind_ok, read_url_required_params, List.all_cons, List.all_nil,
    Bool.and_true]
  rw [hu, Bool.false_and]

/-- Keyword binding for search fails whenever q is not supplied. -/
theorem kwargs_search_missing_q (supplied : List String)
    (hq : supplied.contains "q" = false) :
    kwargs_bind_ok search_params search_required_params supplied = false := by
  simp only [kwargs_bind_ok, search_required_params, List.all_cons, List.all_nil,
    Bool.and_true]
  rw [hq, Bool.false_and]

/-- Keyword binding for read_url fails whenever a stream keyword is
forwarded: stream is not a declared parameter of read_url. -/
theorem kwargs_reader_stream (keys : List String) :
    kwargs_bind_ok read_url_params read_url_required_params ("stream" :: keys) = false := by
  simp only [kwargs_bind_ok, List.all_cons]
  rw [show read_url_params.contains "stream" = false from rfl, Bool.false_and, Bool.and_false]

/-- Keyword binding for search fails whenever a stream keyword is
forwarded: stream is not a declared parameter of search. -/
theorem kwargs_search_stream (keys : List String) :
    kwargs_bind_ok search_params search_required_params ("stream" :: keys) = false := by
  simp only [kwargs_bind_ok, List.all_cons]
  rw [show search_params.contains "stream" = false from rfl, Bool.false_and, Bool.and_false]

/-- C7 amended: the dispatcher performs no schema validation; a parameter
mapping missing the required parameter of either tool makes the splatted
client call fail with a TypeError raised at Python call binding — not
with an aggregated InvalidParametersError envelope — and the Upstream API
Client is never invoked for that request. -/
theorem C7_amended (params qarams : List (String × Json))
    (hu : (params.map Prod.fst).contains "url" = false)
    (hq : (qarams.map Prod.fst).contains "q" = false) :
    (execute_tool "jina.reader" params = .typeError
      ∧ isUpstreamCall (execute_tool "jina.reader" params) = false)
    ∧ (execute_tool "jina.search" qarams = .typeError
      ∧ isUpstreamCall (execute_tool "jina.search" qarams) = false) := by
  have er : execute_tool "jina.reader" params = DispatchResult.typeError := by
    show (if kwargs_bind_ok read_url_params read_url_required_params (params.map Prod.fst) then
        DispatchResult.invokesUpstream "https://r.jina.ai/"
          (Json.obj [("url", (params.lookup "url").getD Json.null)])
      else DispatchResult.typeError) = DispatchResult.typeError
    rw [kwargs_reader_missing_url _ hu]
    rfl
  have es : execute_tool "jina.search" qarams = DispatchResult.typeError := by
    show (if kwargs_bind_ok search_params search_required_params (qarams.map Prod.fst) then
        DispatchResult.invokesUpstream "https://s.jina.ai/"
          (Json.obj [("q", (qarams.lookup "q").getD Json.null),
            ("num", (qarams.lookup "limit").getD (Json.num 5))])
      else DispatchResult.typeError) = DispatchResult.typeError
    rw [kwargs_search_missing_q _ hq]
    rfl
  exact ⟨⟨er, by rw [er]; rfl⟩, ⟨es, by rw [es]; rfl⟩⟩

/-- C7 amended witness: concrete parameter mappings missing url and q. -/
theorem C7_amended_witness :
    (([("x_with_metadata", Json.bool true)] : List (String × Json)).map
        Prod.fst).contains "url" = false
    ∧ (([] : List (String × Json)).map Prod.fst).contains "q" = false
    ∧ execute_tool "jina.reader" [("x_with_metadata", Json.bool true)] = .typeError
    ∧ execute_tool "jina.search" [] = .typeError :=
  ⟨rfl, rfl, (C7_amended [("x_with_metadata", Json.bool true)] [] rfl rfl).1.1,
    (C7_amended [("x_with_metadata", Json.bool true)] [] rfl rfl).2.1⟩

/-- C8: a request naming a tool that is not one of the two registered
names fails with the unknown-tool error (the raised
`ValueError("Unknown tool: ...")`, the realisation of the spec
UnknownToolError) and no handler runs: the Upstream API Client is never
invoked. -/
theorem C8_unknown_tool (name : String) (params : List (String × Json))
    (h1 : (name == "jina.reader") = false) (h2 : (name == "jina.search") = false) :
    execute_tool name params = .unknownTool ("Unknown tool: " ++ name)
    ∧ isUpstreamCall (execute_tool name params) = false := by
  simp [execute_tool, h1, h2, isUpstreamCall]

/-- C8 witness: dispatching the unregistered name bogus fails with the
unknown-tool error and no upstream call. -/
theorem C8_witness :
    (("bogus" == "jina.reader") = false)
    ∧ (("bogus" == "jina.search") = false)
    ∧ execute_tool "bogus" [] = .unknownTool "Unknown tool: bogus"
    ∧ isUpstreamCall (execute_tool "bogus" []) = false :=
  ⟨rfl, rfl, (C8_unknown_tool "bogus" [] rfl rfl).1, (C8_unknown_tool "bogus" [] rfl rfl).2⟩

/-- C9: for every parameter mapping, routing jina_reader or jina_search
through process_mcp_request raises a TypeError at the forwarded call
(the undeclared stream keyword argument) before any upstream HTTP request
is issued, so neither method can ever complete successfully through this
entry point. -/
theorem C9_stream_kwarg_fault (params : List (String × Json)) :
    process_mcp_request "jina_reader" params = .typeError
    ∧ process_mcp_request "jina_search" params = .typeError
    ∧ isUpstreamCall (process_mcp_request "jina_reader" params) = false
    ∧ isUpstreamCall (process_mcp_request "jina_search" params) = false := by
  have er : process_mcp_request "jina_reader" params = DispatchResult.typeError := by
    show (if kwargs_bind_ok read_url_params read_url_required_params
          ("stream" :: params.map Prod.fst) then
        DispatchResult.invokesUpstream "https://r.jina.ai/"
          (Json.obj [("url", (params.lookup "url").getD Json.null)])
      else DispatchResult.typeError) = DispatchResult.typeError
    rw [kwargs_reader_stream]
    rfl
  have es : process_mcp_request "jina_search" params = DispatchResult.typeError := by
    show (if kwargs_bind_ok search_params search_required_params
          ("stream" :: params.map Prod.fst) then
        DispatchResult.invokesUpstream "https://s.jina.ai/"
          (Json.obj [("q", (params.lookup "q").getD Json.null),
            ("num", (params.lookup "limit").getD (Json.num 5))])
      else DispatchResult.typeError) = DispatchResult.typeError
    rw [kwargs_search_stream]
    rfl
  exact ⟨er, es, by rw [er]; rfl, by rw [es]; rfl⟩

/-- Python string truthiness of an optional string: None and the empty
string are falsy. -/
def py_falsy : Option String → Bool
  | none => true
  | some s => s = ""

/-- Python `a or b` on optional strings, as in
`api_key or os.environ.get("JINA_API_KEY")`: the left value when truthy,
otherwise the right value. -/
def py_or_str (a b : Option String) : Option String :=
  match a with
  | some s => if s = "" then b else some s
  | none => b

/-- The instance attributes `JinaClient.__init__` assigns on self,
client.py lines 84-92: api_key, headers and timeout — and nothing else;
in particular no client attribute is ever assigned. -/
def jina_client_init_attrs : List String := ["api_key", "headers", "timeout"]

/-- JinaClient.__init__, client.py lines 76-92: resolves the api key from
the argument or the environment, raises a ValueError when the result is
falsy, and otherwise returns the constructed instance, modelled by the
list of attribute names assigned on it. -/
def jina_init (api_key env_key : Option String) : Except PyErr (List String) :=
  if py_falsy (py_or_str api_key env_key) then
    .error (.valueError "Jina API key is required. Set JINA_API_KEY environment variable.")
  else .ok jina_client_init_attrs

/-- JinaClient.close, client.py lines 94-96: evaluates
`self.client.aclose()`; the attribute access on self fails with an
AttributeError when no client attribute was ever assigned. -/
def jina_close (attrs : List String) : Except PyErr Unit :=
  if attrs.contains "client" then .ok () else .error (.attributeError "client")

/-- JinaClient.__aexit__, client.py lines 243-244: delegates to close. -/
def jina_aexit (attrs : List String) : Except PyErr Unit :=
  jina_close attrs

/-- C10: every successfully constructed JinaClient raises an
AttributeError from close() — and hence from __aexit__ — because
__init__ never assigns the client attribute that close() accesses. -/
theorem C10_close_attribute_fault (api_key env_key : Option String) (attrs : List String)
    (h : jina_init api_key env_key = .ok attrs) :
    jina_close attrs = .error (.attributeError "client")
    ∧ jina_aexit attrs = .error (.attributeError "client") := by
  have ha : attrs = jina_client_init_attrs := by
    unfold jina_init at h
    by_cases hf : py_falsy (py_or_str api_key env_key) = true
    · rw [if_pos hf] at h
      cases h
    · rw [if_neg hf] at h
      cases h
      rfl
  subst ha
  exact ⟨rfl, rfl⟩

/-- C10 witness: a client constructed with a concrete api key faults in
close() with the AttributeError on client. -/
theorem C10_witness :
    jina_init (some "key") none = .ok jina_client_init_attrs
    ∧ jina_close jina_client_init_attrs = .error (.attributeError "client") :=
  ⟨rfl, (C10_close_attribute_fault (some "key") none jina_client_init_attrs rfl).1⟩

/-- Event yielded by the SSE serving generator, server.py lines 102-119:
the initial connection event, the keep-alive ping, or a broadcast
message taken from the queue. -/
inductive SSEYield where
  | connectionEvent (clientId : String)
  | pingEvent
  | messageEvent (m : Json)

/-- What the environment makes one iteration of the serving loop do:
the disconnect poll fires, the queue wait returns a message, the
30-second wait times out, a CancelledError is delivered at the wait, or
an unhandled exception is raised at the wait. -/
inductive LoopStep where
  | disconnected
  | message (m : Json)
  | timeout
  | cancelled
  | fault

/-- Observable action of the serving generator: the add of its queue to
sse_clients (line 98), a yield to the transport, or the removal of its
queue from sse_clients (line 124). -/
inductive GenAction where
  | addConn
  | yieldEv (e : SSEYield)
  | removeConn

/-- Actions of the while-True loop, server.py lines 108-119, for a given
schedule of iteration outcomes: a delivered message or a timeout yields
and continues; a positive disconnect poll breaks; a CancelledError is
caught at line 121 and exits; an unhandled fault exits propagating.
Steps after the terminating one never run. -/
def loopActions : List LoopStep → List GenAction
  | [] => []
  | .disconnected :: _ => []
  | .message m :: rest => .yieldEv (.messageEvent m) :: loopActions rest
  | .timeout :: rest => .yieldEv .pingEvent :: loopActions rest
  | .cancelled :: _ => []
  | .fault :: _ => []

/-- Does a schedule make the while-True loop exit? With no disconnect,
cancellation or fault the loop runs forever. -/
def loopTerminates : List LoopStep → Bool
  | [] => false
  | .disconnected :: _ => true
  | .message _ :: rest => loopTerminates rest
  | .timeout :: rest => loopTerminates rest
  | .cancelled :: _ => true
  | .fault :: _ => true

/-- Full action trace of event_generator, server.py lines 94-124, for a
terminating schedule: add the queue to sse_clients, yield the initial
connection event, run the loop, and on every exit path run the finally
block removing the queue. A non-terminating schedule has no finite
trace. -/
def event_generator_trace (cid : String) (sched : List LoopStep) : Option (List GenAction) :=
  if loopTerminates sched then
    some (.addConn :: .yieldEv (.connectionEvent cid) :: (loopActions sched ++ [.removeConn]))
  else none

/-- The loop body never touches the active set: it only yields. -/
theorem loopActions_no_remove (sched : List LoopStep) :
    GenAction.removeConn ∉ loopActions sched := by
  induction sched with
  | nil => simp [loopActions]
  | cons s rest ih => cases s <;> simp [loopActions, ih]

/-- C2: on every exit path of the serving loop (disconnect poll,
cancellation, unhandled fault) the generator performs exactly one removal
of its queue from the active set, the removal is the last action before
the generator finishes, and no yield happens after it. -/
theorem C2_release_exactly_once (cid : String) (sched : List LoopStep)
    (h : loopTerminates sched = true) :
    ∃ pre, event_generator_trace cid sched = some (pre ++ [GenAction.removeConn])
      ∧ GenAction.removeConn ∉ pre := by
  refine ⟨.addConn :: .yieldEv (.connectionEvent cid) :: loopActions sched, ?_, ?_⟩
  · unfold event_generator_trace
    rw [if_pos h]
    rfl
  · simp [loopActions_no_remove]

/-- C2 witness: a schedule that yields one broadcast message and one
ping and then observes a disconnect removes the connection exactly once,
as the final action. -/
theorem C2_witness :
    loopTerminates [LoopStep.message (Json.str "m"), LoopStep.timeout,
      LoopStep.disconnected] = true
    ∧ ∃ pre, event_generator_trace "c1"
        [LoopStep.message (Json.str "m"), LoopStep.timeout, LoopStep.disconnected] =
          some (pre ++ [GenAction.removeConn])
      ∧ GenAction.removeConn ∉ pre :=
  ⟨rfl, C2_release_exactly_once "c1"
    [LoopStep.message (Json.str "m"), LoopStep.timeout, LoopStep.disconnected] rfl⟩

/-- The SSE Connection Manager state: the sse_clients set of server.py
line 22, with each queue tagged by a connection id and modelled as the
FIFO list of messages it holds (head = oldest). -/
structure SSEState where
  conns : List (Nat × List Json)

/-- The add at server.py line 98: a freshly created queue is empty. -/
def add_connection (s : SSEState) (fresh : Nat) : SSEState :=
  ⟨s.conns ++ [(fresh, [])]⟩

/-- The removal at server.py line 124. -/
def remove_connection (s : SSEState) (i : Nat) : SSEState :=
  ⟨s.conns.filter (fun c => c.fst != i)⟩

/-- broadcast_message, server.py lines 127-137: iterate a snapshot of
sse_clients (`list(sse_clients)`) and enqueue the message on each queue
of the snapshot; queue puts do not suspend, so the snapshot is the
active set at the start of the fan-out. -/
def broadcast_message (s : SSEState) (msg : Json) : SSEState :=
  ⟨s.conns.map (fun c => (c.fst, c.snd ++ [msg]))⟩

/-- C3: broadcasting enqueues the message on exactly the connections
active at the start of the fan-out — every active queue gets the message
appended and the number of connections is unchanged; a connection
released before the broadcast is absent from the fan-out and receives
nothing; a connection accepted after the broadcast starts with an empty
queue (no replay). -/
theorem C3_broadcast_snapshot (s : SSEState) (msg : Json) (i fresh : Nat)
    (idq : Nat × List Json) (hmem : idq ∈ s.conns) :
    (broadcast_message s msg).conns.length = s.conns.length
    ∧ (idq.fst, idq.snd ++ [msg]) ∈ (broadcast_message s msg).conns
    ∧ (∀ c ∈ (broadcast_message (remove_connection s i) msg).conns, c.fst ≠ i)
    ∧ (fresh, ([] : List Json)) ∈ (add_connection (broadcast_message s msg) fresh).conns := by
  refine ⟨?_, ?_, ?_, ?_⟩
  · exact List.length_map _ _
  · exact List.mem_map.mpr ⟨idq, hmem, rfl⟩
  · intro c hc
    rcases List.mem_map.mp hc with ⟨d, hd, rfl⟩
    have hp := List.of_mem_filter hd
    simpa using hp
  · simp [add_connection]

/-- C3 witness: with two active connections, a broadcast reaches both;
after releasing connection 2 it is absent from the fan-out; a connection
accepted after the broadcast has an empty queue. -/
theorem C3_witness :
    ((1, ([] : List Json)) ∈ ([(1, ([] : List Json)), (2, [Json.str "old"])] :
        List (Nat × List Json)))
    ∧ (broadcast_message ⟨[(1, []), (2, [Json.str "old"])]⟩ (Json.str "b")).conns.length = 2
    ∧ (1, [Json.str "b"]) ∈
        (broadcast_message ⟨[(1, []), (2, [Json.str "old"])]⟩ (Json.str "b")).conns
    ∧ (3, ([] : List Json)) ∈
        (add_connection (broadcast_message ⟨[(1, []), (2, [Json.str "old"])]⟩
          (Json.str "b")) 3).conns :=
  ⟨List.mem_cons_self (1, []) [(2, [Json.str "old"])],
    (C3_broadcast_snapshot ⟨[(1, []), (2, [Json.str "old"])]⟩ (Json.str "b") 2 3 (1, [])
      (List.mem_cons_self (1, []) [(2, [Json.str "old"])])).1,
    (C3_broadcast_snapshot ⟨[(1, []), (2, [Json.str "old"])]⟩ (Json.str "b") 2 3 (1, [])
      (List.mem_cons_self (1, []) [(2, [Json.str "old"])])).2.1,
    (C3_broadcast_snapshot ⟨[(1, []), (2, [Json.str "old"])]⟩ (Json.str "b") 2 3 (1, [])
      (List.mem_cons_self (1, []) [(2, [Json.str "old"])])).2.2.2⟩

/-- One wait of the serving loop, server.py lines 113-119: when the
queue holds a message, `asyncio.wait_for(queue.get(), timeout=30)`
returns the oldest one immediately and it is yielded; when the queue is
empty and the 30-second timeout elapses, the TimeoutError branch yields
the keep-alive ping. -/
def next_event (queue : List Json) : SSEYield × List Json :=
  match queue with
  | m :: rest => (.messageEvent m, rest)
  | [] => (.pingEvent, [])

/-- The idle timeout of the queue wait, server.py line 115. -/
def sse_idle_timeout : Nat := 30

/-- The keep-alive ping yielded at server.py line 119: event name ping,
empty data payload. -/
def ping_message : List (String × String) := [("event", "ping"), ("data", "")]

/-- C4: a wait on a connection with queued messages returns the oldest
queued message immediately (FIFO); a wait on an empty queue (the
30-second idle timeout elapsing) yields the ping whose payload is the
empty string; and a connection whose first loop iteration times out
emits the ping right after the initial connection event, before any
other event. -/
theorem C4_next_event (m : Json) (q : List Json) (cid : String) (sched : List LoopStep)
    (h : loopTerminates sched = true) :
    next_event (m :: q) = (SSEYield.messageEvent m, q)
    ∧ next_event [] = (SSEYield.pingEvent, [])
    ∧ sse_idle_timeout = 30
    ∧ ping_message.lookup "data" = some ""
    ∧ ∃ tr, event_generator_trace cid (LoopStep.timeout :: sched) = some tr
        ∧ tr.take 3 = [GenAction.addConn, GenAction.yieldEv (SSEYield.connectionEvent cid),
            GenAction.yieldEv SSEYield.pingEvent] := by
  refine ⟨rfl, rfl, rfl, rfl, ?_⟩
  have ht : loopTerminates (LoopStep.timeout :: sched) = true := h
  refine ⟨GenAction.addConn :: GenAction.yieldEv (SSEYield.connectionEvent cid) ::
      (loopActions (LoopStep.timeout :: sched) ++ [GenAction.removeConn]), ?_, rfl⟩
  unfold event_generator_trace
  rw [if_pos ht]

/-- C4 witness: with one queued message the first wait returns it; on an
empty queue the ping is emitted, and a trace whose first iteration times
out yields connection then ping. -/
theorem C4_witness :
    loopTerminates [LoopStep.disconnected] = true
    ∧ next_event [Json.str "m"] = (SSEYield.messageEvent (Json.str "m"), [])
    ∧ next_event [] = (SSEYield.pingEvent, [])
    ∧ ∃ tr, event_generator_trace "c1" (LoopStep.timeout :: [LoopStep.disconnected]) = some tr
        ∧ tr.take 3 = [GenAction.addConn, GenAction.yieldEv (SSEYield.connectionEvent "c1"),
            GenAction.yieldEv SSEYield.pingEvent] :=
  ⟨rfl, (C4_next_event (Json.str "m") [] "c1" [LoopStep.disconnected] rfl).1,
    (C4_next_event (Json.str "m") [] "c1" [LoopStep.disconnected] rfl).2.1,
    (C4_next_event (Json.str "m") [] "c1" [LoopStep.disconnected] rfl).2.2.2.2⟩
